import Mathlib

/-!
Formal model of `src/web-ui/server/agents/claude-wrapper.py`.

The script has three sequential stages: an argument parser
(`parse_arguments`, lines 15-64), a command builder (`build_command`,
lines 66-101) and a process runner (`run_claude`, lines 103-143), glued
by `main` (lines 145-153).  Each is translated below as a pure function:

* `sys.argv` becomes a `List String` (index 0 is the program name);
* the Python `args` dictionary becomes the structure `Args`, with
  `None` mapped to `none` (Python truthiness of `None`/`str` is
  captured by `isTruthy`);
* the temporary file written for an oversized system prompt is
  modelled by the `temp_file` field of `BuildResult`: the fresh name
  chosen by `tempfile.NamedTemporaryFile` is a parameter `tmp_path`,
  and `temp_file = some (p, c)` records that a file at `p` with
  contents `c` was created;
* the child process is abstracted by a `ChildOutcome` (its exit code
  and captured streams, or a timeout, or a launch failure), and
  `run_claude` maps the outcome to what the wrapper writes and the
  code it exits with (`RunResult`);
* `os.environ` becomes a function `String → Option String`.
-/

/-- Mirror of the Python `args` dictionary initialised at lines 17-26. -/
structure Args where
  model : Option String
  session_id : Option String
  resume : Option String
  system_prompt : Option String
  output_format : Option String
  timeout : Int
  user_prompt : Option String
  print_mode : Bool
deriving DecidableEq

/-- The initial dictionary of lines 17-26 (timeout defaults to 600). -/
def initArgs : Args :=
  { model := none, session_id := none, resume := none, system_prompt := none,
    output_format := none, timeout := 600, user_prompt := none, print_mode := false }

/-- Python truthiness of an optional string: `None` and `""` are falsy. -/
def isTruthy : Option String → Bool
  | none => false
  | some s => s != ""

/-- Model of Python `str.startswith(pre)`, computed on the character
lists (the library `String.startsWith` is extensionally the same but is
defined by well-founded recursion on byte positions, which the kernel
cannot evaluate). -/
def pyStartsWith (s pre : String) : Bool :=
  pre.data.isPrefixOf s.data

/-- Model of Python `str.strip()`: drop leading and trailing
whitespace. -/
def pyStrip (s : String) : String :=
  String.mk (((s.data.dropWhile Char.isWhitespace).reverse.dropWhile Char.isWhitespace).reverse)

/-- Value of a nonempty all-digit character list, `none` otherwise. -/
def pyDigitsGo : List Char → Nat → Option Nat
  | [], acc => some acc
  | c :: cs, acc => if c.isDigit then pyDigitsGo cs (10 * acc + (c.toNat - 48)) else none

/-- Nonempty digit strings denote naturals; anything else is rejected. -/
def pyDigits : List Char → Option Nat
  | [] => none
  | cs => pyDigitsGo cs 0

/-- Model of Python `int(str)`: optional surrounding whitespace, an
optional sign, then a nonempty digit string (underscore grouping is not
modelled).  `int('abc')` raises `ValueError`, modelled as `none`. -/
def pyInt (s : String) : Option Int :=
  match (pyStrip s).data with
  | [] => none
  | c :: cs =>
      if c = '-' then (pyDigits cs).map (fun n => -(n : Int))
      else if c = '+' then (pyDigits cs).map (fun n => (n : Int))
      else (pyDigits (c :: cs)).map (fun n => (n : Int))

/-- The scanning loop of `parse_arguments` (lines 28-58).  Each
recognised flag consumes the following token when one exists; a flag at
the very end of the list falls through to the `--`-starts-with test and
is skipped, exactly as in the Python `elif` chain.  A `ValueError` from
`int()` at line 47 is modelled as `Except.error` carrying the offending
token. -/
def parseLoop : List String → Args → Except String Args
  | [], a => .ok a
  | "--model" :: v :: rest, a => parseLoop rest { a with model := some v }
  | "--session-id" :: v :: rest, a => parseLoop rest { a with session_id := some v }
  | "--resume" :: v :: rest, a => parseLoop rest { a with resume := some v }
  | "--append-system-prompt" :: v :: rest, a => parseLoop rest { a with system_prompt := some v }
  | "--output-format" :: v :: rest, a => parseLoop rest { a with output_format := some v }
  | "--timeout" :: v :: rest, a =>
      match pyInt v with
      | some n => parseLoop rest { a with timeout := n }
      | none => .error v
  | "--print" :: rest, a => parseLoop rest { a with print_mode := true }
  | arg :: rest, a =>
      if pyStartsWith arg "--" then parseLoop rest a
      else parseLoop rest { a with user_prompt := some arg }

/-- The flags of lines 31-48 that consume one following value token. -/
def isValueFlag (arg : String) : Bool :=
  arg == "--model" || arg == "--session-id" || arg == "--resume" ||
  arg == "--append-system-prompt" || arg == "--output-format" || arg == "--timeout"

/-- The tokens that hit the positional branch of the loop (line 54), in
order: not a recognised flag, not consumed as a flag value, and not
starting with `--`.  A value flag that is the last token has no value
to consume and is skipped by the loop's `--`-test, like any other
`--`-token. -/
def posTokens : List String → List String
  | [] => []
  | [arg] => if pyStartsWith arg "--" then [] else [arg]
  | arg :: next :: rest =>
      if isValueFlag arg then posTokens rest
      else if arg = "--print" then posTokens (next :: rest)
      else if pyStartsWith arg "--" then posTokens (next :: rest)
      else arg :: posTokens (next :: rest)

/-- `parse_arguments` (lines 15-64): run the scanning loop over
`sys.argv[1:]`, then, if the prompt is falsy and stdin is not a tty,
replace it by the stripped contents of stdin (lines 60-62). -/
def parse_arguments (argv : List String) (stdin_isatty : Bool) (stdin_content : String) :
    Except String Args :=
  match parseLoop (argv.drop 1) initArgs with
  | .error v => .error v
  | .ok a =>
      if !isTruthy a.user_prompt && !stdin_isatty then
        .ok { a with user_prompt := some (pyStrip stdin_content) }
      else .ok a

/-- Helper to read the parsed user prompt out of a parse result. -/
def getUserPrompt : Except String Args → Option String
  | .ok a => a.user_prompt
  | .error _ => none

/-- Line 68: `os.environ.get('CLAUDE_PATH', '/home/rob/bin/claude')`. -/
def claude_path (environ : String → Option String) : String :=
  (environ "CLAUDE_PATH").getD "/home/rob/bin/claude"

/-- Result of `build_command`: the command vector, the value returned as
the second component (piped stdin input, line 99 vs 101), and the
temporary file written at lines 89-91 (path and contents), if any. -/
structure BuildResult where
  cmd : List String
  piped : Option String
  temp_file : Option (String × String)
deriving DecidableEq

/-- `build_command` (lines 66-101), translated append by append.
`tmp_path` stands for the fresh file name produced by
`tempfile.NamedTemporaryFile` at line 89. -/
def build_command (environ : String → Option String) (tmp_path : String) (args : Args) :
    BuildResult :=
  let claude := claude_path environ
  let cmd := [claude]
  let cmd := if args.print_mode then cmd ++ ["--print"] else cmd
  let cmd := if isTruthy args.model then cmd ++ ["--model", args.model.getD ""] else cmd
  let cmd :=
    if isTruthy args.session_id then cmd ++ ["--session-id", args.session_id.getD ""]
    else if isTruthy args.resume then cmd ++ ["--resume", args.resume.getD ""]
    else cmd
  let cmd := if isTruthy args.output_format then cmd ++ ["--output-format", args.output_format.getD ""] else cmd
  let sysPair : List String × Option (String × String) :=
    if isTruthy args.system_prompt then
      if (args.system_prompt.getD "").length > 5000 then
        (cmd ++ ["--append-system-prompt", "@" ++ tmp_path], some (tmp_path, args.system_prompt.getD ""))
      else
        (cmd ++ ["--append-system-prompt", args.system_prompt.getD ""], none)
    else (cmd, none)
  if isTruthy args.user_prompt ∧ (args.user_prompt.getD "").length < 5000 then
    { cmd := sysPair.1 ++ [args.user_prompt.getD ""], piped := none, temp_file := sysPair.2 }
  else
    { cmd := sysPair.1, piped := args.user_prompt, temp_file := sysPair.2 }

/-- Spec-side segment: `--print` (line 71-72). -/
def printSeg (a : Args) : List String :=
  if a.print_mode then ["--print"] else []

/-- Spec-side segment: `--model` (lines 74-75). -/
def modelSeg (a : Args) : List String :=
  if isTruthy a.model then ["--model", a.model.getD ""] else []

/-- Spec-side segment: `--session-id`, else `--resume` (lines 77-80). -/
def sessionSeg (a : Args) : List String :=
  if isTruthy a.session_id then ["--session-id", a.session_id.getD ""]
  else if isTruthy a.resume then ["--resume", a.resume.getD ""]
  else []

/-- Spec-side segment: `--output-format` (lines 82-83). -/
def outputSeg (a : Args) : List String :=
  if isTruthy a.output_format then ["--output-format", a.output_format.getD ""] else []

/-- Spec-side segment: `--append-system-prompt` (lines 86-94). -/
def sysSeg (tmp_path : String) (a : Args) : List String :=
  if isTruthy a.system_prompt then
    if (a.system_prompt.getD "").length > 5000 then
      ["--append-system-prompt", "@" ++ tmp_path]
    else ["--append-system-prompt", a.system_prompt.getD ""]
  else []

/-- Spec-side segment: the inline user prompt (lines 97-98). -/
def promptSeg (a : Args) : List String :=
  if isTruthy a.user_prompt ∧ (a.user_prompt.getD "").length < 5000 then
    [a.user_prompt.getD ""]
  else []

/-- Outcome of the spawned child process, abstracting
`subprocess.Popen` + `communicate` (lines 107-125): either it completed
with an exit code and captured streams, or `communicate` raised
`TimeoutExpired`, or spawning/running raised some other exception. -/
inductive ChildOutcome where
  | completed (returncode : Int) (stdout_text : String) (stderr_text : String)
  | timedOut
  | launchFailed (msg : String)
deriving DecidableEq

/-- What `run_claude` does to the outside world: the wrapper's exit
code, what it writes to its own stdout and stderr, whether it killed
the child (line 138), and whether the child was spawned with a stdin
pipe (line 107: `if stdin_input:`). -/
structure RunResult where
  exit_code : Int
  out : String
  err : String
  killed_child : Bool
  used_stdin_pipe : Bool
deriving DecidableEq

/-- `run_claude` (lines 103-143) as a function of the child outcome. -/
def run_claude (cmd : List String) (stdin_input : Option String) (timeout : Int)
    (outcome : ChildOutcome) : RunResult :=
  let pipe := isTruthy stdin_input
  match outcome with
  | .completed rc so se =>
      if rc ≠ 0 then
        { exit_code := rc, out := "", err := se, killed_child := false, used_stdin_pipe := pipe }
      else
        { exit_code := 0, out := so, err := "", killed_child := false, used_stdin_pipe := pipe }
  | .timedOut =>
      { exit_code := 124, out := "",
        err := "Command timed out after " ++ toString timeout ++ " seconds\n",
        killed_child := true, used_stdin_pipe := pipe }
  | .launchFailed m =>
      { exit_code := 1, out := "", err := "Error running Claude: " ++ m ++ "\n",
        killed_child := false, used_stdin_pipe := pipe }

/-- The environment handed to the child at lines 114 and 123:
`{**os.environ, 'PATH': f"/home/rob/bin:{os.environ.get('PATH', '')}"}`.
Note the prepended directory is the fixed literal `/home/rob/bin`. -/
def childEnv (environ : String → Option String) : String → Option String :=
  fun k =>
    if k = "PATH" then some ("/home/rob/bin:" ++ (environ "PATH").getD "")
    else environ k

/-- Point update of an environment, used to state that `childEnv` is
insensitive to `CLAUDE_PATH`. -/
def updateEnv (environ : String → Option String) (k v : String) : String → Option String :=
  fun q => if q = k then some v else environ q

/-- Characters strictly before the last slash of a character list. -/
def beforeLastSlash : List Char → List Char
  | [] => []
  | c :: cs => if ('/' : Char) ∈ cs then c :: beforeLastSlash cs else []

/-- Directory containing a path, in the sense of `os.path.dirname`:
everything before the last `/` (used only to state the specification's
"executable's containing directory"; the script never computes it). -/
def dirname (p : String) : String :=
  String.mk (beforeLastSlash p.data)

/-- Observable result of `main` (lines 145-153): exit code, both
streams, and whether a child spawn was attempted at all.  An uncaught
`ValueError` from `int()` makes the interpreter print a traceback and
exit with code 1 before `build_command` or `run_claude` run. -/
structure MainResult where
  exit_code : Int
  out : String
  err : String
  spawned : Bool
deriving DecidableEq

/-- `main` (lines 145-153): parse, build, run. -/
def mainWrapper (argv : List String) (stdin_isatty : Bool) (stdin_content : String)
    (environ : String → Option String) (tmp_path : String) (outcome : ChildOutcome) :
    MainResult :=
  match parse_arguments argv stdin_isatty stdin_content with
  | .error v =>
      { exit_code := 1, out := "",
        err := "ValueError: invalid literal for int() with base 10: " ++ v ++ "\n",
        spawned := false }
  | .ok args =>
      let b := build_command environ tmp_path args
      let r := run_claude b.cmd b.piped args.timeout outcome
      { exit_code := r.exit_code, out := r.out, err := r.err, spawned := true }

/-- A system prompt of exactly 5000 characters. -/
def s5000 : String := String.mk (List.replicate 5000 'a')

/-- A system prompt of 5001 characters. -/
def s5001 : String := String.mk (List.replicate 5001 'a')

/-- A user prompt of exactly 5000 characters. -/
def p5000 : String := String.mk (List.replicate 5000 'b')

/-- An environment with no variables set. -/
def envNone : String → Option String := fun _ => none

/-- An environment where `CLAUDE_PATH` overrides the executable and
`PATH` is `/usr/bin`. -/
def envCex : String → Option String :=
  fun k =>
    if k = "CLAUDE_PATH" then some "/opt/tools/claude"
    else if k = "PATH" then some "/usr/bin"
    else none

/-- Request with both a session id and a resume id. -/
def rSess : Args := { initArgs with session_id := some "sid", resume := some "rr" }

/-- Request with an empty session id and a resume id. -/
def rSessEmpty : Args := { initArgs with session_id := some "", resume := some "rr" }

/-- Request with a 5000-character system prompt. -/
def rSys5000 : Args := { initArgs with system_prompt := some s5000 }

/-- Request with a 5001-character system prompt. -/
def rSys5001 : Args := { initArgs with system_prompt := some s5001 }

/-- Request with a short user prompt. -/
def rUserHi : Args := { initArgs with user_prompt := some "hi" }

/-- Request with a 5000-character user prompt. -/
def rUserBig : Args := { initArgs with user_prompt := some p5000 }

/-- Request with an empty user prompt. -/
def rUserEmpty : Args := { initArgs with user_prompt := some "" }

set_option maxHeartbeats 1000000 in
/-- The command vector decomposes as the ordered concatenation of the
per-flag segments, user prompt last. -/
theorem build_cmd_decomp (environ : String → Option String) (tmp : String) (a : Args) :
    (build_command environ tmp a).cmd =
      [claude_path environ] ++ printSeg a ++ modelSeg a ++ sessionSeg a ++ outputSeg a
        ++ sysSeg tmp a ++ promptSeg a := by
  simp only [build_command, printSeg, modelSeg, sessionSeg, outputSeg, sysSeg, promptSeg]
  split_ifs <;>
    simp only [List.append_assoc, List.nil_append, List.append_nil, List.cons_append,
      List.singleton_append]

/-- The piped-input component of `build_command`. -/
theorem build_piped (environ : String → Option String) (tmp : String) (a : Args) :
    (build_command environ tmp a).piped =
      if isTruthy a.user_prompt ∧ (a.user_prompt.getD "").length < 5000 then none
      else a.user_prompt := by
  simp only [build_command, apply_ite BuildResult.piped]

/-- The temporary-file component of `build_command`. -/
theorem build_temp (environ : String → Option String) (tmp : String) (a : Args) :
    (build_command environ tmp a).temp_file =
      if isTruthy a.system_prompt ∧ (a.system_prompt.getD "").length > 5000 then
        some (tmp, a.system_prompt.getD "")
      else none := by
  simp only [build_command, apply_ite BuildResult.temp_file, apply_ite Prod.snd, ite_self,
    ite_and]

/-- `List.getLast?` of a cons, phrased through `Option.orElse`: pushing
one more captured token makes it the new fallback. -/
theorem getLast?_cons_orElse (x : String) (xs : List String) (o : Option String) :
    ((x :: xs).getLast? <|> o) = (xs.getLast? <|> some x) := by
  cases xs with
  | nil => simp
  | cons y ys =>
    rw [List.getLast?_cons_cons]
    cases h : (y :: ys).getLast? with
    | none => simp at h
    | some w => simp

/-- A token that does not start with `--` is neither a value flag nor
the literal `--print`. -/
theorem not_flag_of_not_startsWith (arg : String) (h : ¬ pyStartsWith arg "--" = true) :
    isValueFlag arg = false ∧ arg ≠ "--print" := by
  constructor
  · by_contra hne
    simp only [Bool.not_eq_false, isValueFlag, Bool.or_eq_true, beq_iff_eq] at hne
    rcases hne with ((((e | e) | e) | e) | e) | e <;> subst e <;> exact h (by decide)
  · intro e; subst e; exact h (by decide)

/-- The user prompt after the scanning loop is the last captured
positional token, or the incoming prompt when none was captured. -/
theorem parseLoop_user_prompt : ∀ (l : List String) (a : Args),
    ∀ a', parseLoop l a = .ok a' →
      a'.user_prompt = ((posTokens l).getLast? <|> a.user_prompt) := by
  intro l a
  induction l, a using parseLoop.induct with
  | case1 a => intro a' h; simp [parseLoop] at h; subst h; simp [posTokens]
  | case2 v rest a ih =>
    intro a' h
    simp only [parseLoop] at h
    simpa [posTokens, isValueFlag] using ih a' h
  | case3 v rest a ih =>
    intro a' h
    simp only [parseLoop] at h
    simpa [posTokens, isValueFlag] using ih a' h
  | case4 v rest a ih =>
    intro a' h
    simp only [parseLoop] at h
    simpa [posTokens, isValueFlag] using ih a' h
  | case5 v rest a ih =>
    intro a' h
    simp only [parseLoop] at h
    simpa [posTokens, isValueFlag] using ih a' h
  | case6 v rest a ih =>
    intro a' h
    simp only [parseLoop] at h
    simpa [posTokens, isValueFlag] using ih a' h
  | case7 v rest a n hn ih =>
    intro a' h
    simp only [parseLoop, hn] at h
    simpa [posTokens, isValueFlag] using ih a' h
  | case8 v rest a hn =>
    intro a' h
    simp only [parseLoop, hn] at h
    exact Except.noConfusion h
  | case9 rest a ih =>
    intro a' h
    simp only [parseLoop] at h
    cases rest with
    | nil =>
      simp [parseLoop] at h
      subst h
      simp [posTokens, (by decide : pyStartsWith "--print" "--" = true)]
    | cons next r =>
      simpa [posTokens, isValueFlag, (by decide : pyStartsWith "--print" "--" = true)]
        using ih a' h
  | case10 arg rest a h1 h2 h3 h4 h5 h6 h7 h8 ih =>
    intro a' h
    simp only [parseLoop] at h
    rw [if_pos h8] at h
    cases rest with
    | nil =>
      simp [parseLoop] at h
      subst h
      simp [posTokens, h8]
    | cons v r =>
      have e1 : arg ≠ "--model" := fun e => h1 v r e rfl
      have e2 : arg ≠ "--session-id" := fun e => h2 v r e rfl
      have e3 : arg ≠ "--resume" := fun e => h3 v r e rfl
      have e4 : arg ≠ "--append-system-prompt" := fun e => h4 v r e rfl
      have e5 : arg ≠ "--output-format" := fun e => h5 v r e rfl
      have e6 : arg ≠ "--timeout" := fun e => h6 v r e rfl
      have e7 : arg ≠ "--print" := fun e => h7 e
      simpa [posTokens, isValueFlag, e1, e2, e3, e4, e5, e6, e7, h8] using ih a' h
  | case11 arg rest a h1 h2 h3 h4 h5 h6 h7 h8 ih =>
    intro a' h
    simp only [parseLoop] at h
    rw [if_neg h8] at h
    obtain ⟨hvf, hpr⟩ := not_flag_of_not_startsWith arg h8
    cases rest with
    | nil =>
      simp [parseLoop] at h
      subst h
      simp [posTokens, h8]
    | cons v r =>
      have hrec := ih a' h
      rw [hrec]
      have hb : pyStartsWith arg "--" = false := by
        cases hx : pyStartsWith arg "--"
        · rfl
        · exact absurd hx h8
      simp [posTokens, hvf, hpr, hb, getLast?_cons_orElse]

/-- Length of the 5000-character sample prompt. -/
theorem s5000_len : s5000.length = 5000 := List.length_replicate 5000 'a'

/-- Length of the 5001-character sample prompt. -/
theorem s5001_len : s5001.length = 5001 := List.length_replicate 5001 'a'

/-- Length of the 5000-character sample user prompt. -/
theorem p5000_len : p5000.length = 5000 := List.length_replicate 5000 'b'

/-- C1: for every Request, the command vector produced by the Command
Builder is the executable path followed by the `--print` segment, the
`--model` segment, the `--session-id`/`--resume` segment, the
`--output-format` segment, the `--append-system-prompt` segment, in
that fixed order, with the inline user prompt segment (a singleton
exactly when the prompt is appended at all) as the final segment. -/
theorem build_cmd_flag_order (environ : String → Option String) (tmp : String) (a : Args) :
    (build_command environ tmp a).cmd =
      [claude_path environ] ++ printSeg a ++ modelSeg a ++ sessionSeg a ++ outputSeg a
        ++ sysSeg tmp a ++ promptSeg a :=
  build_cmd_decomp environ tmp a

/-- C2 counterexample: with sessionId set to the empty string and
resumeId set, the built command contains `--resume` and no
`--session-id`: Python truthiness makes the empty session id lose. -/
theorem session_resume_claim_cex :
    rSessEmpty.session_id = some "" ∧ rSessEmpty.resume = some "rr" ∧
    (build_command envNone "/tmp/s.txt" rSessEmpty).cmd = ["/home/rob/bin/claude", "--resume", "rr"] ∧
    "--resume" ∈ (build_command envNone "/tmp/s.txt" rSessEmpty).cmd := by decide

/-- C2 (amended): for every Request whose sessionId is a nonempty
string and whose resumeId is set, the command vector contains
`--session-id` immediately followed by the sessionId value, and the
resumeId contributes nothing: the vector is identical to the one built
with resumeId absent (so no `--resume` flag is emitted). -/
theorem session_wins_over_resume (environ : String → Option String) (tmp : String)
    (r : Args) (s t : String) (hs : r.session_id = some s) (hne : s ≠ "")
    (hr : r.resume = some t) :
    (∃ l₁ l₂, (build_command environ tmp r).cmd = l₁ ++ ["--session-id", s] ++ l₂) ∧
    (build_command environ tmp r).cmd = (build_command environ tmp { r with resume := none }).cmd := by
  have hd := build_cmd_decomp environ tmp r
  have hd' := build_cmd_decomp environ tmp { r with resume := none }
  have hsess : sessionSeg r = ["--session-id", s] := by
    simp [sessionSeg, hs, isTruthy, hne]
  constructor
  · exact ⟨[claude_path environ] ++ printSeg r ++ modelSeg r,
      outputSeg r ++ sysSeg tmp r ++ promptSeg r, by rw [hd, hsess]; simp [List.append_assoc]⟩
  · rw [hd, hd']
    simp [printSeg, modelSeg, sessionSeg, outputSeg, sysSeg, promptSeg, hs, isTruthy, hne]

/-- C2 witness: a concrete Request with both ids set. -/
theorem session_wins_over_resume_wit :
    (∃ l₁ l₂, (build_command envNone "/tmp/s.txt" rSess).cmd = l₁ ++ ["--session-id", "sid"] ++ l₂) ∧
    (build_command envNone "/tmp/s.txt" rSess).cmd =
      (build_command envNone "/tmp/s.txt" { rSess with resume := none }).cmd :=
  session_wins_over_resume envNone "/tmp/s.txt" rSess "sid" "rr" rfl (by decide) rfl

/-- C3: a system prompt of length exactly 5000 is passed inline after
`--append-system-prompt` and no temporary file is written; at length
strictly greater than 5000 the command instead carries `@` plus the
temporary file path and the file's recorded contents equal the prompt
exactly. -/
theorem system_prompt_threshold (environ : String → Option String) (tmp : String)
    (r : Args) (s : String) (h : r.system_prompt = some s) :
    (s.length = 5000 →
      (∃ l₁ l₂, (build_command environ tmp r).cmd = l₁ ++ ["--append-system-prompt", s] ++ l₂) ∧
      (build_command environ tmp r).temp_file = none) ∧
    (s.length > 5000 →
      (∃ l₁ l₂, (build_command environ tmp r).cmd = l₁ ++ ["--append-system-prompt", "@" ++ tmp] ++ l₂) ∧
      (build_command environ tmp r).temp_file = some (tmp, s)) := by
  have hd := build_cmd_decomp environ tmp r
  have ht := build_temp environ tmp r
  constructor
  · intro hlen
    have hne : s ≠ "" := by
      intro e; rw [e] at hlen; exact absurd hlen (by decide)
    have hsys : sysSeg tmp r = ["--append-system-prompt", s] := by
      simp [sysSeg, h, isTruthy, hne, hlen]
    refine ⟨⟨[claude_path environ] ++ printSeg r ++ modelSeg r ++ sessionSeg r ++ outputSeg r,
      promptSeg r, ?_⟩, ?_⟩
    · rw [hd, hsys]
    · rw [ht]; simp [h, isTruthy, hne, hlen]
  · intro hlen
    have hne : s ≠ "" := by
      intro e; rw [e] at hlen; exact absurd hlen (by decide)
    have hsys : sysSeg tmp r = ["--append-system-prompt", "@" ++ tmp] := by
      simp [sysSeg, h, isTruthy, hne, hlen]
    refine ⟨⟨[claude_path environ] ++ printSeg r ++ modelSeg r ++ sessionSeg r ++ outputSeg r,
      promptSeg r, ?_⟩, ?_⟩
    · rw [hd, hsys]
    · rw [ht]; simp [h, isTruthy, hne, hlen]

/-- C3 witness: concrete prompts of lengths 5000 and 5001. -/
theorem system_prompt_threshold_wit :
    ((∃ l₁ l₂, (build_command envNone "/tmp/s.txt" rSys5000).cmd =
        l₁ ++ ["--append-system-prompt", s5000] ++ l₂) ∧
      (build_command envNone "/tmp/s.txt" rSys5000).temp_file = none) ∧
    ((∃ l₁ l₂, (build_command envNone "/tmp/s.txt" rSys5001).cmd =
        l₁ ++ ["--append-system-prompt", "@" ++ "/tmp/s.txt"] ++ l₂) ∧
      (build_command envNone "/tmp/s.txt" rSys5001).temp_file = some ("/tmp/s.txt", s5001)) :=
  ⟨(system_prompt_threshold envNone "/tmp/s.txt" rSys5000 s5000 rfl).1 s5000_len,
   (system_prompt_threshold envNone "/tmp/s.txt" rSys5001 s5001 rfl).2
      (by rw [s5001_len]; exact Nat.lt_succ_self 5000)⟩

/-- C4 counterexample: the empty user prompt has length 0, strictly
less than 5000, yet it is not appended to the command vector (which
would then have to end in it) and it is returned as the piped-input
component. -/
theorem user_prompt_empty_cex :
    rUserEmpty.user_prompt = some "" ∧ ("" : String).length < 5000 ∧
    (build_command envNone "/tmp/s.txt" rUserEmpty).piped = some "" ∧
    ((build_command envNone "/tmp/s.txt" rUserEmpty).cmd).getLast? ≠ some "" := by decide

/-- C4 (amended): a nonempty user prompt of length strictly less than
5000 is appended as the last element of the command vector with no
piped input; an empty or length-at-least-5000 prompt is instead
returned as the piped input and the command vector is identical to the
one built with no user prompt. -/
theorem user_prompt_inline_or_piped (environ : String → Option String) (tmp : String)
    (r : Args) (p : String) (h : r.user_prompt = some p) :
    (p ≠ "" → p.length < 5000 →
      (build_command environ tmp r).cmd =
        (build_command environ tmp { r with user_prompt := none }).cmd ++ [p] ∧
      (build_command environ tmp r).piped = none) ∧
    (p = "" ∨ 5000 ≤ p.length →
      (build_command environ tmp r).cmd =
        (build_command environ tmp { r with user_prompt := none }).cmd ∧
      (build_command environ tmp r).piped = some p) := by
  have hd := build_cmd_decomp environ tmp r
  have hd' := build_cmd_decomp environ tmp { r with user_prompt := none }
  have hp := build_piped environ tmp r
  constructor
  · intro hne hlen
    constructor
    · rw [hd, hd']
      simp [printSeg, modelSeg, sessionSeg, outputSeg, sysSeg, promptSeg, h, isTruthy, hne, hlen]
    · rw [hp, h]
      simp [isTruthy, hne, hlen]
  · intro hcase
    have hfail : ¬(isTruthy r.user_prompt = true ∧ (r.user_prompt.getD "").length < 5000) := by
      rcases hcase with e | hge
      · subst e; rw [h]; simp [isTruthy]
      · rw [h]; rintro ⟨-, hlt⟩; simp at hlt; omega
    constructor
    · rw [hd, hd']
      have hseg : promptSeg r = [] := by simp [promptSeg, hfail]
      rw [hseg]
      simp [printSeg, modelSeg, sessionSeg, outputSeg, sysSeg, promptSeg, isTruthy]
    · rw [hp, if_neg hfail, h]

/-- C4 witness: a short nonempty prompt is appended; a 5000-character
prompt is piped. -/
theorem user_prompt_inline_or_piped_wit :
    ((build_command envNone "/tmp/s.txt" rUserHi).cmd =
        (build_command envNone "/tmp/s.txt" { rUserHi with user_prompt := none }).cmd ++ ["hi"] ∧
      (build_command envNone "/tmp/s.txt" rUserHi).piped = none) ∧
    ((build_command envNone "/tmp/s.txt" rUserBig).cmd =
        (build_command envNone "/tmp/s.txt" { rUserBig with user_prompt := none }).cmd ∧
      (build_command envNone "/tmp/s.txt" rUserBig).piped = some p5000) :=
  ⟨(user_prompt_inline_or_piped envNone "/tmp/s.txt" rUserHi "hi" rfl).1 (by decide) (by decide),
   (user_prompt_inline_or_piped envNone "/tmp/s.txt" rUserBig p5000 rfl).2
      (Or.inr (by rw [p5000_len]))⟩

/-- C5 counterexample: with two positional tokens, the parser keeps the
second, not the first: the positional branch overwrites the previously
captured prompt. -/
theorem first_positional_cex :
    getUserPrompt (parse_arguments ["wrapper.py", "first", "second"] true "") = some "second" ∧
    ("second" : String) ≠ "first" := by decide

/-- C5 (amended): the scanning loop captures the last token that does
not start with `--` and is not consumed as a flag value: the final user
prompt is the last captured positional token (later such tokens replace
earlier ones). -/
theorem last_positional_wins (argv : List String) (a' : Args)
    (h : parseLoop argv initArgs = .ok a') :
    a'.user_prompt = (posTokens argv).getLast? := by
  have hch := parseLoop_user_prompt argv initArgs a' h
  rw [hch]
  cases (posTokens argv).getLast? <;> simp [initArgs]

/-- C5 witness: two positional tokens, the last one wins. -/
theorem last_positional_wins_wit :
    ({ initArgs with user_prompt := some "second" } : Args).user_prompt =
      (posTokens ["first", "second"]).getLast? :=
  last_positional_wins ["first", "second"] { initArgs with user_prompt := some "second" } rfl

/-- C6 counterexample: with `CLAUDE_PATH=/opt/tools/claude`, the
resolved executable's directory is `/opt/tools`, but the child's `PATH`
is `/home/rob/bin:/usr/bin`, which does not start with `/opt/tools:`:
the prepended directory is the hardcoded `/home/rob/bin`, not the
overridden executable's directory. -/
theorem path_prepend_cex :
    claude_path envCex = "/opt/tools/claude" ∧
    dirname (claude_path envCex) = "/opt/tools" ∧
    childEnv envCex "PATH" = some "/home/rob/bin:/usr/bin" ∧
    pyStartsWith ((childEnv envCex "PATH").getD "") (dirname (claude_path envCex) ++ ":") = false := by
  decide

/-- C6 (amended): the child's `PATH` always has the fixed literal
directory `/home/rob/bin` prepended (the default executable's
directory), independently of any `CLAUDE_PATH` override. -/
theorem path_prepend_fixed_dir (environ : String → Option String) :
    childEnv environ "PATH" = some ("/home/rob/bin:" ++ (environ "PATH").getD "") ∧
    ∀ v, childEnv (updateEnv environ "CLAUDE_PATH" v) "PATH" = childEnv environ "PATH" := by
  constructor
  · simp [childEnv]
  · intro v
    simp [childEnv, updateEnv, (by decide : ("PATH" : String) ≠ "CLAUDE_PATH")]

/-- C7: a child that completes with a nonzero exit code has its stderr
relayed to the wrapper's stderr, nothing written to the wrapper's
stdout, and the wrapper exits with the child's code; a child that
completes with exit code 0 has its stdout relayed and the wrapper
returns success. -/
theorem child_exit_relay (cmd : List String) (si : Option String) (t : Int)
    (rc : Int) (so se : String) :
    (rc ≠ 0 → run_claude cmd si t (.completed rc so se) =
      { exit_code := rc, out := "", err := se, killed_child := false,
        used_stdin_pipe := isTruthy si }) ∧
    run_claude cmd si t (.completed 0 so se) =
      { exit_code := 0, out := so, err := "", killed_child := false,
        used_stdin_pipe := isTruthy si } := by
  constructor
  · intro hne
    simp [run_claude, hne]
  · simp [run_claude]

/-- C7 witness: exit code 3 with stderr boom. -/
theorem child_exit_relay_wit :
    run_claude [] none 600 (.completed 3 "ignored" "boom") =
      { exit_code := 3, out := "", err := "boom", killed_child := false,
        used_stdin_pipe := false } :=
  (child_exit_relay [] none 600 3 "ignored" "boom").1 (by decide)

/-- C8: on timeout the wrapper kills the child, writes a timeout
message to stderr and exits with 124; on any other launch or runtime
failure it writes a descriptive message to stderr and exits with 1. -/
theorem timeout_and_failure_exits (cmd : List String) (si : Option String) (t : Int)
    (m : String) :
    run_claude cmd si t .timedOut =
      { exit_code := 124, out := "",
        err := "Command timed out after " ++ toString t ++ " seconds\n",
        killed_child := true, used_stdin_pipe := isTruthy si } ∧
    run_claude cmd si t (.launchFailed m) =
      { exit_code := 1, out := "", err := "Error running Claude: " ++ m ++ "\n",
        killed_child := false, used_stdin_pipe := isTruthy si } :=
  ⟨rfl, rfl⟩

/-- C9: when the scanning loop reaches `--timeout` with a value that
does not parse as an integer it fails immediately, and any parse
failure makes the program exit nonzero with no child spawn attempted;
the result is independent of the environment, temp path and child
outcome, so neither the Command Builder nor the Process Runner takes
part. -/
theorem bad_timeout_parse_fails :
    (∀ (v : String) (rest : List String) (a : Args), pyInt v = none →
      parseLoop ("--timeout" :: v :: rest) a = .error v) ∧
    (∀ (argv : List String) (tty : Bool) (stdin_content : String) (e : String),
      parse_arguments argv tty stdin_content = .error e →
      ∀ (environ : String → Option String) (tmp : String) (oc : ChildOutcome),
        (mainWrapper argv tty stdin_content environ tmp oc).exit_code ≠ 0 ∧
        (mainWrapper argv tty stdin_content environ tmp oc).spawned = false ∧
        ∀ (environ₂ : String → Option String) (tmp₂ : String) (oc₂ : ChildOutcome),
          mainWrapper argv tty stdin_content environ tmp oc =
            mainWrapper argv tty stdin_content environ₂ tmp₂ oc₂) := by
  constructor
  · intro v rest a hv
    simp [parseLoop, hv]
  · intro argv tty stdin_content e hp environ tmp oc
    refine ⟨?_, ?_, ?_⟩ <;> simp [mainWrapper, hp]

/-- C9 witness: `--timeout abc`. -/
theorem bad_timeout_parse_fails_wit :
    parseLoop ["--timeout", "abc"] initArgs = .error "abc" ∧
    (mainWrapper ["wrapper.py", "--timeout", "abc"] true "" envNone "/tmp/s.txt"
        .timedOut).exit_code ≠ 0 ∧
    (mainWrapper ["wrapper.py", "--timeout", "abc"] true "" envNone "/tmp/s.txt"
        .timedOut).spawned = false :=
  ⟨bad_timeout_parse_fails.1 "abc" [] initArgs rfl,
   (bad_timeout_parse_fails.2 ["wrapper.py", "--timeout", "abc"] true "" "abc" rfl
      envNone "/tmp/s.txt" .timedOut).1,
   (bad_timeout_parse_fails.2 ["wrapper.py", "--timeout", "abc"] true "" "abc" rfl
      envNone "/tmp/s.txt" .timedOut).2.1⟩

/-- C10: an empty positional user prompt is treated as absent at every
stage: the parser still falls back to stdin when it is not a tty, the
builder appends nothing for it (same command vector as with no prompt)
while returning it as the piped value, and the runner opens no stdin
pipe for the empty piped value. -/
theorem empty_prompt_absent :
    (∀ (argv : List String) (stdin_content : String) (a : Args),
      parseLoop (argv.drop 1) initArgs = .ok a → a.user_prompt = some "" →
      parse_arguments argv false stdin_content =
        .ok { a with user_prompt := some (pyStrip stdin_content) }) ∧
    (∀ (environ : String → Option String) (tmp : String) (r : Args),
      r.user_prompt = some "" →
      (build_command environ tmp r).cmd =
        (build_command environ tmp { r with user_prompt := none }).cmd ∧
      (build_command environ tmp r).piped = some "") ∧
    (∀ (cmd : List String) (t : Int) (oc : ChildOutcome),
      (run_claude cmd (some "") t oc).used_stdin_pipe = false) := by
  refine ⟨?_, ?_, ?_⟩
  · intro argv stdin_content a hok hup
    have hok2 : parseLoop argv.tail initArgs = .ok a := by simpa using hok
    simp [parse_arguments, hok2, hup, isTruthy]
  · intro environ tmp r hup
    have hd := build_cmd_decomp environ tmp r
    have hd' := build_cmd_decomp environ tmp { r with user_prompt := none }
    have hp := build_piped environ tmp r
    constructor
    · rw [hd, hd']
      simp [printSeg, modelSeg, sessionSeg, outputSeg, sysSeg, promptSeg, hup, isTruthy]
    · rw [hp]
      simp [hup, isTruthy]
  · intro cmd t oc
    cases oc <;> simp [run_claude, isTruthy, apply_ite RunResult.used_stdin_pipe]

/-- C10 witness: empty positional token, piped stdin hello, empty piped
value. -/
theorem empty_prompt_absent_wit :
    parse_arguments ["wrapper.py", ""] false "  hello \n" =
      .ok { initArgs with user_prompt := some "hello" } ∧
    (build_command envNone "/tmp/s.txt" rUserEmpty).cmd =
      (build_command envNone "/tmp/s.txt" { rUserEmpty with user_prompt := none }).cmd ∧
    (build_command envNone "/tmp/s.txt" rUserEmpty).piped = some "" ∧
    (run_claude [] (some "") 600 .timedOut).used_stdin_pipe = false :=
  ⟨empty_prompt_absent.1 ["wrapper.py", ""] "  hello \n"
      { initArgs with user_prompt := some "" } rfl rfl,
   (empty_prompt_absent.2.1 envNone "/tmp/s.txt" rUserEmpty rfl).1,
   (empty_prompt_absent.2.1 envNone "/tmp/s.txt" rUserEmpty rfl).2,
   empty_prompt_absent.2.2 [] 600 .timedOut⟩
